import Mathlib

/-!
Shallow embedding of the filehub server's code-resolution and workspace
("box"/container) core, translated from the Express route handlers in
`src/unnamed/part_000` (and their near-identical twins in
`src/unnamed/part_004`), together with theorems settling the frozen claims
about the resolver, the access guard and the container mutations.

Mongo collections are modelled as Lean lists in natural (insertion) order;
`findOne` is `List.find?`, `findOneAndDelete` erases the first match,
`save` on a fetched document writes it back by its unique business key.
-/

set_option linter.unusedVariables false

namespace Filehub

/-- `fileSchema`: {name, url, size, date, type, code}.  `type` is a Lean
keyword, so the media-type field is called `ftype`. -/
structure FileEntry where
  name : String
  url : String
  size : Nat
  date : Nat
  ftype : String
  code : String
deriving Repr, DecidableEq

/-- `uploadSchema`: an ungrouped Share Record {name, files, code, size, date}. -/
structure Upload where
  name : String
  files : List FileEntry
  code : String
  size : Nat
  date : Nat
deriving Repr, DecidableEq

/-- `workspaceSchema`: a container {boxName (unique), pin, files, createdAt}. -/
structure Workspace where
  boxName : String
  pin : String
  files : List FileEntry
  createdAt : Nat
deriving Repr, DecidableEq

/-- The two Mongo collections, each in natural order. -/
structure Store where
  uploads : List Upload
  workspaces : List Workspace
deriving Repr, DecidableEq

/-- The literal masking label used by the resolver:
`name: "Shared File", // Masking the Box Name for privacy`. -/
def sharedFileLabel : String := "Shared File"

/-- Result of `GET /api/uploads/:code`: either the Upload document verbatim,
or the masked `{ name, files }` wrapper, or 404. -/
inductive ResolveResult where
  | upload (u : Upload)
  | masked (name : String) (files : List FileEntry)
  | notFound
deriving Repr, DecidableEq

/-- `GET /api/uploads/:code` (part_000 lines 94-123): first
`Upload.findOne({ code })`, returned verbatim if found; else
`Workspace.findOne({ "files.code": code })` and the first matching file is
wrapped as `{ name: "Shared File", files: [foundFile] }`; else 404. -/
def resolveCode (s : Store) (code : String) : ResolveResult :=
  match s.uploads.find? (fun u => u.code = code) with
  | some uploadData => .upload uploadData
  | none =>
    match s.workspaces.find? (fun w => w.files.any (fun f => f.code = code)) with
    | some workspace =>
        .masked sharedFileLabel ((workspace.files.find? (fun f => f.code = code)).toList)
    | none => .notFound

/-- Result of `POST /api/uploads` (part_000 lines 74-91): 400 when no files,
else the new Upload document is saved and the code echoed. -/
inductive UploadResult where
  | noFiles
  | saved (code : String)
deriving Repr, DecidableEq

/-- `POST /api/uploads`: `if (!files || files.length === 0)` then 400; else
`new Upload({ name, code, files, size }).save()` — inserted with no
duplicate-code check of any kind.  `date` is the insertion timestamp
(`Date.now` default). -/
def postUpload (s : Store) (name code : String) (files : List FileEntry)
    (size date : Nat) : UploadResult × Store :=
  if files.isEmpty then (.noFiles, s)
  else
    let newUpload : Upload := { name := name, files := files, code := code,
                                size := size, date := date }
    (.saved code, { s with uploads := s.uploads ++ [newUpload] })

/-- Result of `POST /api/box/login` (part_000 lines 174-193).  The 401
branch carries no data: the JSON is only `{ error: "Incorrect PIN" }`. -/
inductive LoginResult where
  | notFound
  | incorrectPin
  | success (boxName : String) (files : List FileEntry)
deriving Repr, DecidableEq

/-- `POST /api/box/login`: `Workspace.findOne({ boxName })`; 404 if absent;
401 if `box.pin !== pin` (exact string inequality); else
`{ boxName: box.boxName, files: box.files }`. -/
def boxLogin (s : Store) (boxName pin : String) : LoginResult :=
  match s.workspaces.find? (fun w => w.boxName = boxName) with
  | none => .notFound
  | some box =>
    if box.pin ≠ pin then .incorrectPin
    else .success box.boxName box.files

/-- `box.save()` after mutating a fetched workspace document: the stored
document with that (unique) `boxName` is replaced by the mutated one. -/
def saveWorkspace (s : Store) (box : Workspace) : Store :=
  { s with workspaces :=
      s.workspaces.map (fun x => if x.boxName = box.boxName then box else x) }

/-- `files.map(f => ({ ...f, code: Math.floor(100000 + Math.random() * 900000).toString() }))`:
each incoming file gets the next draw of the process-wide random source,
modelled as the supply `gen` consumed in order starting at index `i`. -/
def mintCodes (gen : Nat → String) : List FileEntry → Nat → List FileEntry
  | [], _ => []
  | f :: fs, i => { f with code := gen i } :: mintCodes gen fs (i + 1)

/-- Result of `POST /api/workspaces/upload` (part_000 lines 196-222). -/
inductive BoxUploadResult where
  | notFound
  | invalidPin
  | success (files : List FileEntry)
deriving Repr, DecidableEq

/-- `POST /api/workspaces/upload`: find the box (404 if absent), check
`box.pin !== pin` (401), mint a fresh code for each incoming file, append
them all (`box.files.push(...filesWithCodes)`), save, and return the
updated full file list. -/
def boxUpload (gen : Nat → String) (s : Store) (boxName pin : String)
    (files : List FileEntry) : BoxUploadResult × Store :=
  match s.workspaces.find? (fun w => w.boxName = boxName) with
  | none => (.notFound, s)
  | some box =>
    if box.pin ≠ pin then (.invalidPin, s)
    else
      let filesWithCodes := mintCodes gen files 0
      let box2 := { box with files := box.files ++ filesWithCodes }
      (.success box2.files, saveWorkspace s box2)

/-- Result of `GET /api/workspaces/:boxName` (part_000 lines 225-242).
Success returns the whole stored document (`res.json(box)`), pin included. -/
inductive FetchResult where
  | notFound
  | invalidPin
  | success (box : Workspace)
deriving Repr, DecidableEq

/-- `GET /api/workspaces/:boxName`: the pin arrives as an optional query
parameter; the guard is `if (pin && box.pin !== pin)`, so a missing
(`none`) or empty (falsy `""`) pin skips the check entirely. -/
def getBoxFiles (s : Store) (boxName : String) (pin : Option String) : FetchResult :=
  match s.workspaces.find? (fun w => w.boxName = boxName) with
  | none => .notFound
  | some box =>
    match pin with
    | none => .success box
    | some p => if p ≠ "" ∧ box.pin ≠ p then .invalidPin else .success box

/-- `GET /api/admin/workspaces`: `Workspace.find().sort({ createdAt: -1 })` —
every stored document verbatim, newest first. -/
def listWorkspaces (s : Store) : List Workspace :=
  s.workspaces.mergeSort (fun a b => b.createdAt ≤ a.createdAt)

/-- Result of `DELETE /api/admin/workspaces/:boxName` (part_000 lines 255-263). -/
inductive DeleteBoxResult where
  | notFound
  | deleted
deriving Repr, DecidableEq

/-- `DELETE /api/admin/workspaces/:boxName`:
`Workspace.findOneAndDelete({ boxName })` removes the first stored document
with that name (and with it all its embedded file entries). -/
def deleteWorkspace (s : Store) (boxName : String) : DeleteBoxResult × Store :=
  match s.workspaces.find? (fun w => w.boxName = boxName) with
  | none => (.notFound, s)
  | some _ =>
      (.deleted, { s with workspaces := s.workspaces.eraseP (fun w => w.boxName = boxName) })

/-- Result of `DELETE /api/workspaces/:boxName/files/:code` (part_000
lines 266-288). -/
inductive DeleteFileResult where
  | boxNotFound
  | fileNotFound
  | success (files : List FileEntry)
deriving Repr, DecidableEq

/-- `DELETE /api/workspaces/:boxName/files/:code`: the request body's `pin`
is destructured (`const { pin } = req.body`) but never compared against
`box.pin`; the handler finds the box (404), finds the file index by code
(404), then `box.files.splice(fileIndex, 1)` and saves. -/
def deleteBoxFile (s : Store) (boxName code pin : String) : DeleteFileResult × Store :=
  match s.workspaces.find? (fun w => w.boxName = boxName) with
  | none => (.boxNotFound, s)
  | some box =>
    match box.files.findIdx? (fun f => f.code = code) with
    | none => (.fileNotFound, s)
    | some fileIndex =>
      let box2 := { box with files := box.files.eraseIdx fileIndex }
      (.success box2.files, saveWorkspace s box2)

/-! ### Concrete fixtures used by witnesses and counterexamples -/

/-- A sample file entry carrying the per-file code `c`. -/
def sampleFile (c : String) : FileEntry :=
  { name := "report.pdf", url := "https://storage/report.pdf", size := 10,
    date := 0, ftype := "application/pdf", code := c }

/-- A Share Record whose code is `"123456"`. -/
def demoUpload : Upload :=
  { name := "alice", files := [sampleFile "123456"], code := "123456",
    size := 10, date := 0 }

/-- A container whose per-file codes are `"222222"` and — deliberately —
also `"123456"`, the demo Share Record's code. -/
def boxA : Workspace :=
  { boxName := "A", pin := "1234",
    files := [sampleFile "222222", sampleFile "123456"], createdAt := 0 }

/-- A store holding both the demo Share Record and the demo container, so
code `"123456"` exists in both scopes at once. -/
def demoStore : Store := { uploads := [demoUpload], workspaces := [boxA] }

/-- A store with no Share Records at all, only the demo container. -/
def maskStore : Store := { uploads := [], workspaces := [boxA] }

/-- A container with a single file, used to exhibit the absent secret check
on file deletion. -/
def cx3Box : Workspace :=
  { boxName := "box1", pin := "1234", files := [sampleFile "555555"],
    createdAt := 0 }

/-- Store holding only `cx3Box`. -/
def cx3Store : Store := { uploads := [], workspaces := [cx3Box] }

/-- Store already holding the Share Record with code `"123456"`. -/
def cx4Store : Store := { uploads := [demoUpload], workspaces := [] }

/-- A code supply standing for a random source that happens to repeat:
every draw is `"111111"`. -/
def constGen : Nat → String := fun _ => "111111"

/-- An initially empty container for the upload scenarios. -/
def cx6Box : Workspace :=
  { boxName := "box1", pin := "1", files := [], createdAt := 0 }

/-- Store holding only the empty `cx6Box`. -/
def cx6Store : Store := { uploads := [], workspaces := [cx6Box] }

/-- Incoming files for the upload scenarios; their `code` fields are
overwritten by the server at upload time. -/
def fIncoming (nm : String) (sz : Nat) : FileEntry :=
  { name := nm, url := "https://storage/" ++ nm, size := sz, date := 0,
    ftype := "text/plain", code := "" }

/-- The store after uploading two files twice to `cx6Box`, always drawing
codes from the repeating supply `constGen`. -/
def cx6After : Store :=
  (boxUpload constGen
    (boxUpload constGen cx6Store "box1" "1"
      [fIncoming "a.txt" 1, fIncoming "b.txt" 2]).2
    "box1" "1" [fIncoming "c.txt" 3, fIncoming "d.txt" 4]).2

/-- A code supply for the first upload of the distinct-draws scenario. -/
def genOne : Nat → String := fun i => if i = 0 then "100001" else "100002"

/-- A code supply for the second upload of the distinct-draws scenario. -/
def genTwo : Nat → String := fun i => if i = 0 then "100003" else "100004"

/-- Container `A` of the cascade scenario, holding per-file code `"222222"`. -/
def cx7BoxA : Workspace :=
  { boxName := "A", pin := "1", files := [sampleFile "222222"], createdAt := 0 }

/-- Container `B` of the cascade scenario, holding — by random collision —
the same per-file code `"222222"`. -/
def cx7BoxB : Workspace :=
  { boxName := "B", pin := "2", files := [sampleFile "222222"], createdAt := 1 }

/-- Store with the colliding containers `A` and `B` and no Share Records. -/
def cx7Store : Store := { uploads := [], workspaces := [cx7BoxA, cx7BoxB] }

/-- Store where code `"222222"` lives only in container `A`; container `C`
holds an unrelated code. -/
def w7Store : Store :=
  { uploads := [],
    workspaces := [cx7BoxA,
      { boxName := "C", pin := "3", files := [sampleFile "333333"],
        createdAt := 2 }] }

end Filehub

namespace Filehub

/-! ### Claim theorems -/

/-- Claim C1: `resolve` checks the Share Record (Upload) collection first and
returns a matching record verbatim — regardless of what the containers hold,
so a code living in both scopes yields the Share Record — and only when no
Share Record and no container file matches does it return the not-found
outcome. -/
theorem claim_resolver_share_record_priority (s : Store) (code : String) :
    (∀ u, s.uploads.find? (fun v => v.code = code) = some u →
        resolveCode s code = .upload u) ∧
    (s.uploads.find? (fun v => v.code = code) = none →
      s.workspaces.find? (fun w => w.files.any (fun f => f.code = code)) = none →
        resolveCode s code = .notFound) := by
  constructor
  · intro u h
    unfold resolveCode
    rw [h]
  · intro h1 h2
    unfold resolveCode
    rw [h1, h2]

/-- Witness for C1 on the demo store, where code `"123456"` is both a Share
Record code and a per-file code inside container `A`: the Share Record wins,
and an unused code is not found. -/
theorem claim_resolver_share_record_priority_witness :
    (demoStore.workspaces.find?
        (fun w => w.files.any (fun f => f.code = "123456")) = some boxA) ∧
    resolveCode demoStore "123456" = .upload demoUpload ∧
    resolveCode demoStore "999999" = .notFound :=
  ⟨by decide,
   (claim_resolver_share_record_priority demoStore "123456").1 demoUpload (by decide),
   (claim_resolver_share_record_priority demoStore "999999").2 (by decide) (by decide)⟩

/-- Claim C2: when no Share Record matches but some container holds a file
with the code, `resolve` returns the masked view: the uploader-name field
is the fixed generic label `"Shared File"` — a constant, independent of the
container's real name — and the file list is exactly the single (first)
matching file entry. -/
theorem claim_resolver_masked_view (s : Store) (code : String) (w : Workspace)
    (h1 : s.uploads.find? (fun v => v.code = code) = none)
    (h2 : s.workspaces.find? (fun v => v.files.any (fun f => f.code = code)) = some w) :
    sharedFileLabel = "Shared File" ∧
    ∃ f, w.files.find? (fun f => f.code = code) = some f ∧ f.code = code ∧
      resolveCode s code = .masked sharedFileLabel [f] := by
  refine ⟨rfl, ?_⟩
  have hany : (w.files.any (fun f => f.code = code)) = true := by
    simpa using List.find?_some h2
  have hex : ∃ f ∈ w.files, f.code = code := by simpa using hany
  have hsome : (w.files.find? (fun f => f.code = code)).isSome := by
    rw [List.find?_isSome]
    simpa using hex
  obtain ⟨f, hf⟩ := Option.isSome_iff_exists.mp hsome
  refine ⟨f, hf, by simpa using List.find?_some hf, ?_⟩
  unfold resolveCode
  rw [h1, h2]
  dsimp only
  rw [hf]
  rfl

/-- Witness for C2 on the store with no Share Records: code `"222222"` lives
only inside container `A` and resolves to the masked view. -/
theorem claim_resolver_masked_view_witness :
    sharedFileLabel = "Shared File" ∧
    ∃ f, boxA.files.find? (fun f => f.code = "222222") = some f ∧
      f.code = "222222" ∧
      resolveCode maskStore "222222" = .masked sharedFileLabel [f] :=
  claim_resolver_masked_view maskStore "222222" boxA (by decide) (by decide)

/-- Claim C5: the box-login access guard returns 404 when the container is
absent; 401 when the stored pin differs from the supplied one under exact
case-sensitive string equality, the 401 constructor carrying no file data;
and otherwise success with the container's current file list. -/
theorem claim_box_login_access_guard (s : Store) (boxName pin : String) :
    (s.workspaces.find? (fun w => w.boxName = boxName) = none →
        boxLogin s boxName pin = .notFound) ∧
    (∀ box, s.workspaces.find? (fun w => w.boxName = boxName) = some box →
      (box.pin ≠ pin → boxLogin s boxName pin = .incorrectPin) ∧
      (box.pin = pin → boxLogin s boxName pin = .success box.boxName box.files)) := by
  refine ⟨fun h => ?_, fun box hbox => ⟨fun hne => ?_, fun heq => ?_⟩⟩
  · unfold boxLogin
    rw [h]
  · unfold boxLogin
    rw [hbox]
    dsimp only
    rw [if_pos hne]
  · unfold boxLogin
    rw [hbox]
    dsimp only
    rw [if_neg (fun hn => hn heq)]

/-- Witness for C5 on the demo store: absent box, wrong pin, right pin. -/
theorem claim_box_login_access_guard_witness :
    boxLogin demoStore "nosuchbox" "1234" = .notFound ∧
    boxLogin demoStore "A" "9999" = .incorrectPin ∧
    boxLogin demoStore "A" "1234" = .success boxA.boxName boxA.files :=
  ⟨(claim_box_login_access_guard demoStore "nosuchbox" "1234").1 (by decide),
   ((claim_box_login_access_guard demoStore "A" "9999").2 boxA (by decide)).1 (by decide),
   ((claim_box_login_access_guard demoStore "A" "1234").2 boxA (by decide)).2 (by decide)⟩

/-- Claim C8: removing a file code that is not present in the (existing)
container leaves the entire store untouched and reports file-not-found — in
particular the container's file list and its length are unchanged. -/
theorem claim_remove_file_absent_code (s : Store) (boxName code pin : String)
    (box : Workspace)
    (hbox : s.workspaces.find? (fun w => w.boxName = boxName) = some box)
    (habsent : ∀ f ∈ box.files, f.code ≠ code) :
    deleteBoxFile s boxName code pin = (.fileNotFound, s) := by
  unfold deleteBoxFile
  rw [hbox]
  dsimp only
  rw [List.findIdx?_eq_none_iff.mpr (fun x hx => by simpa using habsent x hx)]

/-- Witness for C8: deleting the absent code `"999999"` from container `A`
changes nothing. -/
theorem claim_remove_file_absent_code_witness :
    deleteBoxFile demoStore "A" "999999" "1234" = (.fileNotFound, demoStore) :=
  claim_remove_file_absent_code demoStore "A" "999999" "1234" boxA
    (by decide) (by decide)

/-- Claim C9: in the refetch read the wrong-pin branch fires only when a pin
is actually supplied: for an existing container, a missing or empty query
pin returns the full container, and the 401 outcome occurs exactly when a
non-empty pin is supplied that differs from the stored one. -/
theorem claim_refetch_pin_guard (s : Store) (boxName : String) (box : Workspace)
    (hbox : s.workspaces.find? (fun w => w.boxName = boxName) = some box) :
    getBoxFiles s boxName none = .success box ∧
    getBoxFiles s boxName (some "") = .success box ∧
    ∀ p, (getBoxFiles s boxName (some p) = .invalidPin ↔ p ≠ "" ∧ box.pin ≠ p) := by
  refine ⟨?_, ?_, fun p => ?_⟩
  · unfold getBoxFiles
    rw [hbox]
  · unfold getBoxFiles
    rw [hbox]
    simp
  · unfold getBoxFiles
    rw [hbox]
    dsimp only
    by_cases h : p ≠ "" ∧ box.pin ≠ p
    · rw [if_pos h]
      simp [h]
    · rw [if_neg h]
      simp [h]

/-- Witness for C9 on the demo store: no pin and empty pin both succeed, a
wrong non-empty pin is rejected, the right pin is accepted. -/
theorem claim_refetch_pin_guard_witness :
    getBoxFiles demoStore "A" none = .success boxA ∧
    getBoxFiles demoStore "A" (some "") = .success boxA ∧
    (getBoxFiles demoStore "A" (some "9999") = .invalidPin ↔
      ("9999" : String) ≠ "" ∧ boxA.pin ≠ "9999") :=
  ⟨(claim_refetch_pin_guard demoStore "A" boxA (by decide)).1,
   (claim_refetch_pin_guard demoStore "A" boxA (by decide)).2.1,
   (claim_refetch_pin_guard demoStore "A" boxA (by decide)).2.2 "9999"⟩

/-- Claim C10: every successful refetch read returns a stored container
document verbatim — the whole `Workspace` record, its plaintext `pin` field
included — and the admin listing contains every stored container document,
again verbatim with its plaintext pin. -/
theorem claim_plaintext_pin_exposure (s : Store) (boxName : String)
    (pin : Option String) :
    (∀ box, getBoxFiles s boxName pin = .success box → box ∈ s.workspaces) ∧
    (∀ w ∈ s.workspaces, w ∈ listWorkspaces s) := by
  constructor
  · intro box h
    unfold getBoxFiles at h
    cases hfind : s.workspaces.find? (fun w => w.boxName = boxName) with
    | none =>
      rw [hfind] at h
      cases h
    | some b =>
      rw [hfind] at h
      have hb : b ∈ s.workspaces := List.mem_of_find?_eq_some hfind
      cases pin with
      | none =>
        cases h
        exact hb
      | some p =>
        dsimp only at h
        by_cases hc : p ≠ "" ∧ b.pin ≠ p
        · rw [if_pos hc] at h
          cases h
        · rw [if_neg hc] at h
          cases h
          exact hb
  · intro w hw
    exact List.mem_mergeSort.mpr hw

/-- Witness for C10: the refetch of container `A` hands back `boxA` itself
(pin `"1234"` included), and `boxA` appears in the admin listing. -/
theorem claim_plaintext_pin_exposure_witness :
    boxA ∈ demoStore.workspaces ∧ boxA ∈ listWorkspaces demoStore :=
  ⟨(claim_plaintext_pin_exposure demoStore "A" none).1 boxA (by decide),
   (claim_plaintext_pin_exposure demoStore "A" none).2 boxA (by decide)⟩

/-- Claim C3 counterexample: deleting file `"555555"` from `box1` while
supplying the wrong secret `"9999"` (the stored pin is `"1234"`) succeeds
and removes the file — there is no forbidden outcome and the file list is
not left unchanged, contrary to the claim. -/
theorem claim_remove_file_secret_cx :
    ("9999" : String) ≠ cx3Box.pin ∧
    (deleteBoxFile cx3Store "box1" "555555" "9999").1 = .success [] ∧
    (deleteBoxFile cx3Store "box1" "555555" "9999").2.workspaces.map
        Workspace.files = [[]] := by
  decide

/-- Claim C3 amended: the delete-file handler never consults the supplied
secret — the result is identical for any two supplied secrets — and
whenever the container exists and holds the file code, the file is removed
(under any secret whatsoever). -/
theorem claim_remove_file_no_secret_check (s : Store)
    (boxName code pin pin2 : String) :
    deleteBoxFile s boxName code pin = deleteBoxFile s boxName code pin2 ∧
    ∀ box i, s.workspaces.find? (fun w => w.boxName = boxName) = some box →
      box.files.findIdx? (fun f => f.code = code) = some i →
      deleteBoxFile s boxName code pin =
        (.success (box.files.eraseIdx i),
         saveWorkspace s { box with files := box.files.eraseIdx i }) := by
  refine ⟨rfl, fun box i hbox hidx => ?_⟩
  unfold deleteBoxFile
  rw [hbox]
  dsimp only
  rw [hidx]

/-- Witness for the amended C3: two different wrong secrets give the same
outcome, and the file is removed despite the mismatched secret. -/
theorem claim_remove_file_no_secret_check_witness :
    deleteBoxFile cx3Store "box1" "555555" "1111" =
      deleteBoxFile cx3Store "box1" "555555" "2222" ∧
    deleteBoxFile cx3Store "box1" "555555" "1111" =
      (.success (cx3Box.files.eraseIdx 0),
       saveWorkspace cx3Store { cx3Box with files := cx3Box.files.eraseIdx 0 }) :=
  ⟨(claim_remove_file_no_secret_check cx3Store "box1" "555555" "1111" "2222").1,
   (claim_remove_file_no_secret_check cx3Store "box1" "555555" "1111" "2222").2
     cx3Box 0 (by decide) (by decide)⟩

/-- Claim C4 counterexample: submitting a share under code `"123456"`, which
the Share Record collection already contains, is not rejected — it reports
success and inserts, leaving two Share Records with the same code. -/
theorem claim_duplicate_code_cx :
    (∃ u ∈ cx4Store.uploads, u.code = "123456") ∧
    (postUpload cx4Store "bob" "123456" [sampleFile "123456"] 10 7).1 =
      .saved "123456" ∧
    ((postUpload cx4Store "bob" "123456" [sampleFile "123456"] 10 7).2.uploads.filter
        (fun u => u.code = "123456")).length = 2 := by
  decide

/-- Claim C4 amended: submit-share validates only that the file list is
non-empty; it performs no duplicate-code check at all, so with any
non-empty file list the record is inserted regardless of the codes already
present, and the collection can come to hold two records with one code. -/
theorem claim_put_share_record_no_dup_check (s : Store) (name code : String)
    (files : List FileEntry) (size date : Nat) :
    (files = [] → postUpload s name code files size date = (.noFiles, s)) ∧
    (files ≠ [] → postUpload s name code files size date =
      (.saved code,
       { s with uploads := s.uploads ++
          [{ name := name, files := files, code := code,
             size := size, date := date }] })) := by
  constructor
  · intro h
    unfold postUpload
    rw [if_pos (by simp [h])]
  · intro h
    unfold postUpload
    rw [if_neg (by simp [List.isEmpty_iff, h])]

/-- Witness for the amended C4: the empty file list is rejected, and a
duplicate code is inserted without complaint. -/
theorem claim_put_share_record_no_dup_check_witness :
    postUpload cx4Store "bob" "123456" [] 0 7 = (.noFiles, cx4Store) ∧
    postUpload cx4Store "bob" "123456" [sampleFile "123456"] 10 7 =
      (.saved "123456",
       { cx4Store with uploads := cx4Store.uploads ++
          [{ name := "bob", files := [sampleFile "123456"], code := "123456",
             size := 10, date := 7 }] }) :=
  ⟨(claim_put_share_record_no_dup_check cx4Store "bob" "123456" [] 0 7).1 rfl,
   (claim_put_share_record_no_dup_check cx4Store "bob" "123456"
      [sampleFile "123456"] 10 7).2 (by decide)⟩

/-- Minting codes preserves the number of incoming files. -/
theorem mintCodes_length (gen : Nat → String) (fs : List FileEntry) (i : Nat) :
    (mintCodes gen fs i).length = fs.length := by
  induction fs generalizing i with
  | nil => rfl
  | cons f fs ih => simp [mintCodes, ih]

/-- The minted per-file codes are exactly the successive draws of the
supply, starting at index `i`. -/
theorem mintCodes_map_code (gen : Nat → String) (fs : List FileEntry) (i : Nat) :
    (mintCodes gen fs i).map FileEntry.code = (List.range' i fs.length).map gen := by
  induction fs generalizing i with
  | nil => rfl
  | cons f fs ih => simp [mintCodes, List.range'_succ, ih]

/-- Writing back a document whose (unique) name some stored document bears
makes the subsequent by-name lookup return the written document. -/
theorem find?_saveWorkspace (l : List Workspace) (n : String) (b : Workspace)
    (hb : b.boxName = n)
    (hl : (l.find? (fun w => w.boxName = n)).isSome) :
    (l.map (fun x => if x.boxName = b.boxName then b else x)).find?
      (fun w => w.boxName = n) = some b := by
  induction l with
  | nil => simp at hl
  | cons x xs ih =>
    by_cases hx : x.boxName = n
    · have hxb : x.boxName = b.boxName := by rw [hx, hb]
      simp only [List.map_cons, if_pos hxb]
      exact List.find?_cons_of_pos _ (by simpa using hb)
    · have hxb : ¬ x.boxName = b.boxName := by rw [hb]; exact hx
      simp only [List.map_cons, if_neg hxb]
      rw [List.find?_cons_of_neg _ (by simpa using hx)]
      apply ih
      rwa [List.find?_cons_of_neg _ (by simpa using hx)] at hl

/-- An authorized box upload appends the minted files to the found container
and writes the updated document back. -/
theorem boxUpload_found (g : Nat → String) (s : Store) (boxName pin : String)
    (fs : List FileEntry) (box : Workspace)
    (hbox : s.workspaces.find? (fun w => w.boxName = boxName) = some box)
    (hpin : box.pin = pin) :
    boxUpload g s boxName pin fs =
      (.success (box.files ++ mintCodes g fs 0),
       saveWorkspace s { box with files := box.files ++ mintCodes g fs 0 }) := by
  unfold boxUpload
  rw [hbox]
  dsimp only
  rw [if_neg (fun hn => hn hpin)]

/-- Claim C6 counterexample: two successive authorized uploads of two files
each into the empty container, with the random source repeating the draw
`"111111"`, leave the container holding four files — but their per-file
codes are all equal, not pairwise distinct as the claim states. -/
theorem claim_upload_distinct_codes_cx :
    cx6After.workspaces.map (fun w => w.files.map FileEntry.code) =
      [["111111", "111111", "111111", "111111"]] ∧
    ¬ ∀ w ∈ cx6After.workspaces, (w.files.map FileEntry.code).Nodup := by
  decide

/-- Claim C6 amended: two successive authorized uploads of two files each
into an empty container leave it holding exactly four file entries whose
per-file codes are exactly the four draws of the random supply, in order —
pairwise distinct whenever those four draws are distinct, which the server
never checks. -/
theorem claim_upload_appends_minted_codes (g1 g2 : Nat → String) (s : Store)
    (boxName pin : String) (box : Workspace) (fs1 fs2 : List FileEntry)
    (hbox : s.workspaces.find? (fun w => w.boxName = boxName) = some box)
    (hpin : box.pin = pin) (hempty : box.files = [])
    (h1 : fs1.length = 2) (h2 : fs2.length = 2) :
    ∃ box2,
      (boxUpload g2 (boxUpload g1 s boxName pin fs1).2 boxName pin
          fs2).2.workspaces.find? (fun w => w.boxName = boxName) = some box2 ∧
      box2.files.length = 4 ∧
      box2.files.map FileEntry.code = [g1 0, g1 1, g2 0, g2 1] ∧
      (([g1 0, g1 1, g2 0, g2 1] : List String).Nodup →
        (box2.files.map FileEntry.code).Nodup) := by
  have hbn : box.boxName = boxName := by simpa using List.find?_some hbox
  have e1 := boxUpload_found g1 s boxName pin fs1 box hbox hpin
  have hfind1 : (boxUpload g1 s boxName pin fs1).2.workspaces.find?
      (fun w => w.boxName = boxName) =
      some { box with files := box.files ++ mintCodes g1 fs1 0 } := by
    rw [e1]
    exact find?_saveWorkspace s.workspaces boxName _ hbn (by rw [hbox]; rfl)
  have e2 := boxUpload_found g2 (boxUpload g1 s boxName pin fs1).2 boxName pin
    fs2 _ hfind1 hpin
  have hfind2 : (boxUpload g2 (boxUpload g1 s boxName pin fs1).2 boxName pin
      fs2).2.workspaces.find? (fun w => w.boxName = boxName) =
      some { box with files := (box.files ++ mintCodes g1 fs1 0) ++ mintCodes g2 fs2 0 } := by
    rw [e2]
    exact find?_saveWorkspace _ boxName _ hbn (by rw [hfind1]; rfl)
  refine ⟨_, hfind2, ?_, ?_, ?_⟩
  · dsimp only
    rw [hempty]
    simp [mintCodes_length, h1, h2]
  · dsimp only
    rw [hempty]
    rw [List.nil_append, List.map_append, mintCodes_map_code, mintCodes_map_code,
      h1, h2]
    rfl
  · intro hnd
    dsimp only
    rw [hempty, List.nil_append, List.map_append, mintCodes_map_code,
      mintCodes_map_code, h1, h2]
    exact hnd

/-- Witness for the amended C6: with supplies that draw `"100001"`,
`"100002"`, `"100003"`, `"100004"`, the empty box ends up with four files
carrying exactly those pairwise distinct codes. -/
theorem claim_upload_appends_minted_codes_witness :
    cx6Store.workspaces.find? (fun w => w.boxName = "box1") = some cx6Box ∧
    ∃ box2,
      (boxUpload genTwo (boxUpload genOne cx6Store "box1" "1"
          [fIncoming "a.txt" 1, fIncoming "b.txt" 2]).2 "box1" "1"
          [fIncoming "c.txt" 3, fIncoming "d.txt" 4]).2.workspaces.find?
        (fun w => w.boxName = "box1") = some box2 ∧
      box2.files.length = 4 ∧
      box2.files.map FileEntry.code =
        [genOne 0, genOne 1, genTwo 0, genTwo 1] ∧
      (([genOne 0, genOne 1, genTwo 0, genTwo 1] : List String).Nodup →
        (box2.files.map FileEntry.code).Nodup) :=
  ⟨by decide,
   claim_upload_appends_minted_codes genOne genTwo cx6Store "box1" "1" cx6Box
     [fIncoming "a.txt" 1, fIncoming "b.txt" 2]
     [fIncoming "c.txt" 3, fIncoming "d.txt" 4]
     (by decide) rfl rfl (by decide) (by decide)⟩

/-- With pairwise distinct container names, no workspace bearing the erased
name survives `findOneAndDelete` on that name. -/
theorem not_mem_eraseP_of_name (l : List Workspace) (n : String)
    (hnodup : (l.map Workspace.boxName).Nodup) (w : Workspace)
    (hw : w.boxName = n)
    (hmem : w ∈ l.eraseP (fun x => x.boxName = n)) : False := by
  induction l with
  | nil => simp [List.eraseP] at hmem
  | cons x xs ih =>
    rw [List.eraseP_cons] at hmem
    rw [List.map_cons, List.nodup_cons] at hnodup
    by_cases hx : x.boxName = n
    · rw [show (decide (x.boxName = n)) = true from decide_eq_true hx,
        Bool.cond_true] at hmem
      exact hnodup.1 (by rw [hx, ← hw]; exact List.mem_map_of_mem Workspace.boxName hmem)
    · rw [show (decide (x.boxName = n)) = false from decide_eq_false_iff_not.mpr hx,
        Bool.cond_false] at hmem
      rcases List.mem_cons.mp hmem with rfl | hmem2
      · exact hx hw
      · exact ih hnodup.2 hmem2

/-- Claim C7 counterexample: code `"222222"` belongs to container `A` and
matches no Share Record, yet after deleting `A` the resolver still answers
(with the masked view from container `B`, which happens to carry the same
randomly minted per-file code) — not the not-found outcome the claim
requires. -/
theorem claim_delete_container_resolve_cx :
    (∃ w ∈ cx7Store.workspaces, w.boxName = "A" ∧
      ∃ f ∈ w.files, f.code = "222222") ∧
    (∀ u ∈ cx7Store.uploads, u.code ≠ "222222") ∧
    (deleteWorkspace cx7Store "A").1 = .deleted ∧
    resolveCode (deleteWorkspace cx7Store "A").2 "222222" ≠ .notFound := by
  decide

/-- Claim C7 amended: after deleting a container, a code that matches no
Share Record and occurred in no container other than the deleted one (the
container names being pairwise distinct) resolves to the not-found
outcome. -/
theorem claim_delete_container_cascades (s : Store) (boxName code : String)
    (hnupload : ∀ u ∈ s.uploads, u.code ≠ code)
    (honly : ∀ w ∈ s.workspaces,
      (∃ f ∈ w.files, f.code = code) → w.boxName = boxName)
    (hnodup : (s.workspaces.map Workspace.boxName).Nodup) :
    resolveCode (deleteWorkspace s boxName).2 code = .notFound := by
  have hups : (deleteWorkspace s boxName).2.uploads = s.uploads := by
    unfold deleteWorkspace
    cases s.workspaces.find? (fun w => w.boxName = boxName) <;> rfl
  have hkey : ∀ w ∈ (deleteWorkspace s boxName).2.workspaces,
      ¬ ∃ f ∈ w.files, f.code = code := by
    unfold deleteWorkspace
    cases hfind : s.workspaces.find? (fun w => w.boxName = boxName) with
    | none =>
      intro w hw hex
      have hn := List.find?_eq_none.mp hfind w hw
      exact hn (by simpa using honly w hw hex)
    | some b =>
      intro w hw hex
      exact not_mem_eraseP_of_name s.workspaces boxName hnodup w
        (honly w ((List.eraseP_sublist s.workspaces).subset hw) hex) hw
  have h1 : (deleteWorkspace s boxName).2.uploads.find?
      (fun u => u.code = code) = none := by
    rw [hups, List.find?_eq_none]
    intro u hu
    simpa using hnupload u hu
  have h2 : (deleteWorkspace s boxName).2.workspaces.find?
      (fun w => w.files.any (fun f => f.code = code)) = none := by
    rw [List.find?_eq_none]
    intro w hw
    simpa [List.any_eq_true] using hkey w hw
  unfold resolveCode
  rw [h1, h2]

/-- Witness for the amended C7: code `"222222"` lives only in container `A`;
once `A` is deleted the code no longer resolves. -/
theorem claim_delete_container_cascades_witness :
    (∀ u ∈ w7Store.uploads, u.code ≠ "222222") ∧
    resolveCode (deleteWorkspace w7Store "A").2 "222222" = .notFound :=
  ⟨by decide,
   claim_delete_container_cascades w7Store "A" "222222" (by decide) (by decide)
     (by decide)⟩

end Filehub
